import Mathlib

/-!
Verification of the content-ingestion-and-prompt-assembly pipeline of the
`jyro_demo` repository (files `app_streamlit.py` and `app_streamlit_fr.py`).

The Python source is shallowly embedded: strings are Lean `String`s
(Python slicing/stripping/splitting are re-implemented on `List Char`,
matching Python code-point semantics), HTML documents parsed by
BeautifulSoup are modelled as a tree of element/text nodes, the network,
the PDF page extractor and the chat-completion endpoint are modelled as
explicit inputs describing their outcome, and Streamlit session state is
modelled as explicit state records threaded through step functions.
-/

namespace JyroDemo

/-- One chat message / one conversation turn: a `{role, content}` pair,
as used both for the transcript in `st.session_state` and for the
message lists sent to the completions endpoint. -/
structure Msg where
  role : String
  content : String
deriving DecidableEq, Repr

/-- Python whitespace as recognised by `str.strip` / `str.splitlines`
for the characters relevant here. -/
def isPySpace (c : Char) : Bool :=
  c == ' ' || c == '\t' || c == '\n' || c == '\r' || c == '\x0b' || c == '\x0c'

/-- Embedding of Python `str.strip()` on the underlying character list:
drop whitespace from the front, then from the back. -/
def stripList (l : List Char) : List Char :=
  ((l.dropWhile isPySpace).reverse.dropWhile isPySpace).reverse

/-- Embedding of Python `str.strip()`. -/
def pyStrip (s : String) : String := ⟨stripList s.data⟩

/-- Helper for `pySplitlines`: accumulate the current line (reversed);
the final segment is kept only when non-empty, as in Python. -/
def splitlinesAux : List Char → List Char → List (List Char)
  | [], acc => if acc = [] then [] else [acc.reverse]
  | c :: cs, acc =>
    if c == '\n' then acc.reverse :: splitlinesAux cs []
    else splitlinesAux cs (c :: acc)

/-- Embedding of Python `str.splitlines()` (newline-separator case, which
is the only separator the pipeline produces). -/
def pySplitlines (s : String) : List String :=
  (splitlinesAux s.data []).map (fun l => ⟨l⟩)

/-- Embedding of the Python slice `s[:maxChars]`: the first `maxChars`
code points. -/
def truncateTo (s : String) (maxChars : Nat) : String :=
  ⟨s.data.take maxChars⟩

/-- Embedding of Python `s.startswith(pre)`. -/
def pyStartswith (s pre : String) : Bool :=
  pre.data.isPrefixOf s.data

/-- A parsed HTML document node, as produced by BeautifulSoup:
either a text node or an element with a tag name and children. -/
inductive Node where
  | text (s : String)
  | elem (tag : String) (children : List Node)

/-- The tags decomposed by `soup(["script", "style", "noscript"])`. -/
def bannedTags : List String := ["script", "style", "noscript"]

mutual

/-- Embedding of `tag.decompose()` applied to every script/style/noscript
element: a banned element is removed together with its whole subtree. -/
def removeBanned : Node → Option Node
  | Node.text s => some (Node.text s)
  | Node.elem t cs =>
    if bannedTags.contains t then none
    else some (Node.elem t (removeBannedL cs))

/-- `removeBanned` mapped over a child list, dropping removed nodes. -/
def removeBannedL : List Node → List Node
  | [] => []
  | c :: cs =>
    match removeBanned c with
    | none => removeBannedL cs
    | some c2 => c2 :: removeBannedL cs

end

mutual

/-- All text-node strings of a node in document order
(what `soup.get_text(separator)` joins). -/
def collectText : Node → List String
  | Node.text s => [s]
  | Node.elem _ cs => collectTexts cs

/-- `collectText` over a node list. -/
def collectTexts : List Node → List String
  | [] => []
  | c :: cs => collectText c ++ collectTexts cs

end

mutual

/-- A node contains no script/style/noscript element anywhere. -/
def noBanned : Node → Bool
  | Node.text _ => true
  | Node.elem t cs => !(bannedTags.contains t) && noBannedL cs

/-- `noBanned` over a node list. -/
def noBannedL : List Node → Bool
  | [] => true
  | c :: cs => noBanned c && noBannedL cs

end

mutual

/-- Modelled from the spec: the text content of a document outside any
script/style/noscript element ("the sanitized output contains none of
those elements' text content").  Used only to compare the sanitizer
against the specification. -/
def specVisibleTexts : Node → List String
  | Node.text s => [s]
  | Node.elem t cs =>
    if bannedTags.contains t then [] else specVisibleTextsL cs

/-- `specVisibleTexts` over a node list. -/
def specVisibleTextsL : List Node → List String
  | [] => []
  | c :: cs => specVisibleTexts c ++ specVisibleTextsL cs

end

/-! ## The HTML-to-text cleaning pipeline of `fetch_site_text` -/

/-- The lines surviving the cleanup in `fetch_site_text`:
`soup.get_text(separator="\n")`, then
`lines = [line.strip() for line in text.splitlines()]` and
`non_empty = [line for line in lines if line]`. -/
def sanitizedLines (body : List Node) : List String :=
  ((pySplitlines
      (String.intercalate "\n" (collectTexts (removeBannedL body)))).map
    pyStrip).filter (fun l => l != "")

/-- `"\n".join(non_empty)`: the cleaned visible text of the page before
truncation. -/
def cleanHtmlText (body : List Node) : String :=
  String.intercalate "\n" (sanitizedLines body)

/-- The outcome of `requests.get(url, timeout=...)`: either a response
with an HTTP status (plus the message the raised `HTTPError` would carry,
and the parsed body), or a transport exception with its message. -/
inductive HttpResult where
  | response (status : Nat) (cause : String) (body : List Node)
  | transportError (cause : String)

/-- `resp.raise_for_status()` raises exactly for 4xx and 5xx statuses. -/
def raiseForStatus (status : Nat) : Bool :=
  decide (400 ≤ status) && decide (status < 600)

/-- Embedding of `fetch_site_text` (`app_streamlit.py`, lines 16-42),
given the outcome of the HTTP GET: any exception in the `try` block is
returned as `"Error while fetching the website: <cause>"`; otherwise the
body is cleaned and truncated to 12000 characters. -/
def fetch_site_text (r : HttpResult) : String :=
  match r with
  | HttpResult.transportError cause =>
    "Error while fetching the website: " ++ cause
  | HttpResult.response status cause body =>
    if raiseForStatus status then "Error while fetching the website: " ++ cause
    else truncateTo (cleanHtmlText body) 12000

/-- Embedding of `fetch_site_text` of `app_streamlit_fr.py` (lines 11-35),
identical up to the error prefix and the 15000-character bound. -/
def fetch_site_text_fr (r : HttpResult) : String :=
  match r with
  | HttpResult.transportError cause =>
    "Erreur lors de la récupération du site : " ++ cause
  | HttpResult.response status cause body =>
    if raiseForStatus status then
      "Erreur lors de la récupération du site : " ++ cause
    else truncateTo (cleanHtmlText body) 15000

/-! ## Credential resolution and the completion calls -/

/-- The OpenAI client record (only the key matters to the model). -/
structure Client where
  api_key : String
deriving DecidableEq, Repr

/-- Embedding of `get_openai_client` (lines 45-55): `st.secrets` is an
explicit `Option String`; a missing key makes the subscript raise
`KeyError`, an empty key raises the explicit `RuntimeError` (message
abridged), otherwise the client is built.  No request is involved. -/
def get_openai_client (secret : Option String) : Except String Client :=
  match secret with
  | none => Except.error "KeyError: OPENAI_KEY"
  | some k =>
    if k = "" then
      Except.error "OPENAI_KEY is not set in Streamlit secrets."
    else Except.ok ⟨k⟩

/-- `JYRO_URL` constant of `app_streamlit.py`. -/
def JYRO_URL : String := "https://jyrorealestate.com/"

/-- The part of the dedented, stripped website-assistant system prompt
before the interpolated context (lines 61-86). -/
def jyroPromptPre : String :=
  "You are a real estate assistant for Jyro Real Estate, a company\nspecializing in renting and selling properties in Tetouan and\nNorthern Morocco, as presented on their official website `"
  ++ JYRO_URL ++
  "`.\n\nUse the information below as your main reference about their\nservices, property types, locations, and general positioning.\n\nIf the user asks about topics outside this context (e.g. detailed\nlegal/tax advice, highly technical questions), give a high-level\nanswer and encourage them to contact the agency directly for\nofficial information.\n\nWEBSITE CONTEXT (cleaned extract):\n---\n"

/-- The part of the website-assistant system prompt after the context. -/
def jyroPromptPost : String :=
  "\n---\n\nAnswer in a way that is:\n- clear and professional\n- friendly and reassuring\n- focused on helping the user understand how Jyro Real Estate\n  can support them in finding, renting, or buying a property."

/-- The website-assistant persona with the bounded site context embedded. -/
def jyro_system_prompt (site_context : String) : String :=
  jyroPromptPre ++ site_context ++ jyroPromptPost

/-- The message list built inside `call_jyro_assistant` (lines 88-95):
one system message, then the single new user message. -/
def call_jyro_messages (user_message site_context : String) : List Msg :=
  [⟨"system", jyro_system_prompt site_context⟩,
   ⟨"user", user_message⟩]

/-- The dedented, stripped document-assistant persona (lines 118-130). -/
def pdf_system_prompt : String :=
  "You are an assistant that answers questions based strictly on the\ncontent of the following PDF document provided by the user.\n\n- If the answer is clearly present in the document, quote or\n  summarise it in simple business English.\n- If the document does not contain the answer, say that the\n  information is not in the document and respond with your best\n  general guidance, clearly separating what comes from the PDF\n  and what is general advice."

/-- The second, content-carrying system message of document mode
(line 136). -/
def pdf_content_message (pdf_text : String) : String :=
  "PDF DOCUMENT CONTENT (truncated):\n---\n" ++ pdf_text ++ "\n---"

/-- The message list built inside `call_pdf_assistant` (lines 132-139):
persona system message, content system message, new user message. -/
def call_pdf_messages (question pdf_text : String) : List Msg :=
  [⟨"system", pdf_system_prompt⟩,
   ⟨"system", pdf_content_message pdf_text⟩,
   ⟨"user", question⟩]

/-- Embedding of `call_jyro_assistant` (lines 58-97).  The completion
endpoint is the explicit collaborator `gw`; the function returns the
result (the reply content is `.strip()`ped, any raised exception is the
`Except.error` cause) together with the list of message lists actually
sent to the endpoint (empty when the client could not be built). -/
def call_jyro_assistant (secret : Option String)
    (gw : List Msg → Except String String)
    (user_message site_context : String) :
    Except String String × List (List Msg) :=
  match get_openai_client secret with
  | Except.error e => (Except.error e, [])
  | Except.ok _ =>
    let sent := call_jyro_messages user_message site_context
    match gw sent with
    | Except.error e => (Except.error e, [sent])
    | Except.ok raw => (Except.ok (pyStrip raw), [sent])

/-- Embedding of `call_pdf_assistant` (lines 115-147), instrumented the
same way as `call_jyro_assistant`. -/
def call_pdf_assistant (secret : Option String)
    (gw : List Msg → Except String String)
    (question pdf_text : String) :
    Except String String × List (List Msg) :=
  match get_openai_client secret with
  | Except.error e => (Except.error e, [])
  | Except.ok _ =>
    let sent := call_pdf_messages question pdf_text
    match gw sent with
    | Except.error e => (Except.error e, [sent])
    | Except.ok raw => (Except.ok (pyStrip raw), [sent])

/-! ## The per-question handlers of the two chat pages -/

/-- The `if user_input:` block of `render_website_chat_page`
(lines 194-206): append the user turn, call the assistant inside
`try/except` turning any exception into the inline error answer, append
the assistant turn.  Returns the new transcript and the request log. -/
def websiteQuestionStep (secret : Option String)
    (gw : List Msg → Except String String)
    (transcript : List Msg) (user_input site_text : String) :
    List Msg × List (List Msg) :=
  let r := call_jyro_assistant secret gw user_input site_text
  let answer :=
    match r.1 with
    | Except.ok a => a
    | Except.error e => "An error occurred while calling the OpenAI API: " ++ e
  (transcript ++ [⟨"user", user_input⟩, ⟨"assistant", answer⟩], r.2)

/-- The `if ask and pdf_question:` block of `render_pdf_chat_page`
(lines 261-277), structured exactly as `websiteQuestionStep`. -/
def pdfQuestionStep (secret : Option String)
    (gw : List Msg → Except String String)
    (history : List Msg) (question pdf_text : String) :
    List Msg × List (List Msg) :=
  let r := call_pdf_assistant secret gw question pdf_text
  let answer :=
    match r.1 with
    | Except.ok a => a
    | Except.error e => "An error occurred while calling the OpenAI API: " ++ e
  (history ++ [⟨"user", question⟩, ⟨"assistant", answer⟩], r.2)

/-! ## Page rendering: website mode -/

/-- What `render_website_chat_page` does after loading the site text:
either `st.error` followed by `st.stop()` (no conversation UI), or the
chat UI over the loaded context. -/
inductive SitePage where
  | fetchErrorStop (message : String)
  | chat (site_text : String)
deriving DecidableEq, Repr

/-- The context-loading head of `render_website_chat_page`
(lines 173-192): fetch, then stop on the error prefix, else offer the
conversation over the fetched text. -/
def render_website_chat_page (env : HttpResult) : SitePage :=
  let site_text := fetch_site_text env
  if pyStartswith site_text "Error while fetching the website" then
    SitePage.fetchErrorStop site_text
  else SitePage.chat site_text

/-! ## Page rendering: document mode -/

/-- The outcome of one page's `page.extract_text()`: a string (with
`None` already folded to `""` by `or ""`), or a raised exception that
the `except ... continue` swallows. -/
inductive PageExtract where
  | ok (s : String)
  | failed
deriving DecidableEq, Repr

/-- Embedding of `extract_pdf_text` (lines 100-112): texts of the pages
whose extraction succeeded, joined by newlines, truncated to 20000. -/
def extract_pdf_text (pages : List PageExtract) : String :=
  let texts := pages.foldr
    (fun p acc => match p with
      | PageExtract.ok s => s :: acc
      | PageExtract.failed => acc) []
  truncateTo (String.intercalate "\n" texts) 20000

/-- The document-mode slice of `st.session_state`:
`pdf_text`, `pdf_filename` and `pdf_messages` (each possibly unset). -/
structure PdfSession where
  pdf_text : Option String
  pdf_filename : Option String
  pdf_messages : Option (List Msg)
deriving DecidableEq, Repr

/-- The cache-or-recompute block of `render_pdf_chat_page`
(lines 229-237): re-extract exactly when `pdf_text` is unset or the
uploaded filename differs, resetting the transcript; otherwise reuse
the stored state.  The boolean reports whether extraction ran. -/
def uploadStep (sess : PdfSession) (name : String)
    (pages : List PageExtract) : PdfSession × Bool :=
  if sess.pdf_text.isNone || sess.pdf_filename != some name then
    (⟨some (extract_pdf_text pages), some name, some []⟩, true)
  else (sess, false)

/-- The page outcome of `render_pdf_chat_page`: no file uploaded, the
no-readable-text warning (after which the function returns, so no
question input is offered), or the Q&A interface with its history. -/
inductive PdfPage where
  | noUpload
  | noReadableText
  | qa (history : List Msg)
deriving DecidableEq, Repr

/-- Result of one run of `render_pdf_chat_page`: the updated session
state, the rendered page, and whether `extract_pdf_text` ran. -/
structure PdfRender where
  sess : PdfSession
  page : PdfPage
  didExtract : Bool
deriving DecidableEq, Repr

/-- Embedding of `render_pdf_chat_page` (lines 214-285): upload handling
with the single-slot cache keyed by filename, the blank-text guard
(`not pdf_text or not pdf_text.strip()`) that warns and returns, then
the optional question step. -/
def render_pdf_chat_page (secret : Option String)
    (gw : List Msg → Except String String)
    (sess : PdfSession) (uploaded : Option (String × List PageExtract))
    (question : Option String) : PdfRender :=
  match uploaded with
  | none => ⟨sess, PdfPage.noUpload, false⟩
  | some (name, pages) =>
    let u := uploadStep sess name pages
    let s1 := u.1
    let t := s1.pdf_text.getD ""
    if t = "" ∨ pyStrip t = "" then ⟨s1, PdfPage.noReadableText, u.2⟩
    else
      let s2 := if s1.pdf_messages = none then
          { s1 with pdf_messages := some [] }
        else s1
      match question with
      | none => ⟨s2, PdfPage.qa (s2.pdf_messages.getD []), u.2⟩
      | some q =>
        let step := pdfQuestionStep secret gw (s2.pdf_messages.getD []) q t
        ⟨{ s2 with pdf_messages := some step.1 }, PdfPage.qa step.1, u.2⟩

/-! ## The French variant's load handler -/

/-- The site-mode slice of `st.session_state` in `app_streamlit_fr.py`:
`site_url`, `site_text` and `chat_messages`. -/
structure FrSession where
  site_url : Option String
  site_text : Option String
  chat_messages : List Msg
deriving DecidableEq, Repr

/-- The `if load_clicked and site_url:` block of `main`
(`app_streamlit_fr.py`, lines 126-134): an error-prefixed fetch result
leaves the session untouched, otherwise the new source replaces the
stored context and the transcript is cleared. -/
def frLoadSite (sess : FrSession) (url fetched : String) : FrSession :=
  if pyStartswith fetched "Erreur lors de la récupération" then sess
  else { site_url := some url, site_text := some fetched, chat_messages := [] }

/-! ## The process-wide `lru_cache` around `fetch_site_text` -/

/-- The `functools.lru_cache` wrapper on `fetch_site_text`, most recent
entry first: a hit returns the stored string (moving it to the front)
with no network activity, a miss runs the fetch against the network
environment `env`, stores the result (evicting beyond `maxsize`) and
reports that a request happened. -/
def cachedFetchSite (maxsize : Nat) (cache : List (String × String))
    (env : String → HttpResult) (url : String) :
    String × List (String × String) × Bool :=
  match cache.lookup url with
  | some v => (v, (url, v) :: cache.eraseP (fun p => p.1 == url), false)
  | none =>
    let v := fetch_site_text (env url)
    (v, ((url, v) :: cache).take maxsize, true)

/-! ## A two-session world over one process -/

/-- Identifier of one of two independent browsing sessions. -/
inductive SessionId where
  | one
  | two
deriving DecidableEq, Repr

/-- Two independent browsing sessions served by one process: each has
its own `st.session_state` transcript, while the module-level
`lru_cache` of `fetch_site_text` is a single process-wide store. -/
structure World where
  cache : List (String × String)
  web_messages1 : List Msg
  web_messages2 : List Msg
deriving DecidableEq, Repr

/-- A `fetch_site_text` call issued from one of the sessions: it reads
and updates the process-wide cache (the session identity plays no role,
exactly as for a module-level `lru_cache`).  `maxsize=1` as in
`app_streamlit.py`. -/
def worldFetch (w : World) (_sid : SessionId)
    (env : String → HttpResult) (url : String) :
    String × World × Bool :=
  let r := cachedFetchSite 1 w.cache env url
  (r.1, { w with cache := r.2.1 }, r.2.2)

/-- A question handled in one of the sessions: only that session's
`st.session_state` transcript is touched. -/
def worldAsk (w : World) (sid : SessionId) (secret : Option String)
    (gw : List Msg → Except String String) (input ctx : String) : World :=
  match sid with
  | SessionId.one =>
    { w with web_messages1 :=
        (websiteQuestionStep secret gw w.web_messages1 input ctx).1 }
  | SessionId.two =>
    { w with web_messages2 :=
        (websiteQuestionStep secret gw w.web_messages2 input ctx).1 }

end JyroDemo
namespace JyroDemo

/-! ## Properties of the Python string primitives -/

theorem dropWhile_head_false (p : Char → Bool) :
    ∀ (l : List Char) (a : Char) (as : List Char),
      l.dropWhile p = a :: as → p a = false := by
  intro l
  induction l with
  | nil => intro a as h; simp [List.dropWhile] at h
  | cons x xs ih =>
    intro a as h
    rw [List.dropWhile_cons] at h
    by_cases hx : p x = true
    · rw [if_pos hx] at h; exact ih a as h
    · rw [if_neg hx] at h
      cases h
      simpa using hx

theorem head?_dropWhile_false (p : Char → Bool) (l : List Char) (a : Char)
    (h : (l.dropWhile p).head? = some a) : p a = false := by
  cases hE : l.dropWhile p with
  | nil => rw [hE] at h; cases h
  | cons x xs =>
    rw [hE] at h
    cases h
    exact dropWhile_head_false p l _ _ hE

theorem dropWhile_eq_self_of_head (p : Char → Bool) (l : List Char)
    (h : ∀ a, l.head? = some a → p a = false) : l.dropWhile p = l := by
  cases l with
  | nil => rfl
  | cons x xs =>
    have hx : p x = false := h x rfl
    rw [List.dropWhile_cons]
    simp [hx]

theorem getLast?_dropWhile (p : Char → Bool) (l : List Char)
    (h : l.dropWhile p ≠ []) : (l.dropWhile p).getLast? = l.getLast? := by
  obtain ⟨a, ha⟩ : ∃ a, (l.dropWhile p).getLast? = some a := by
    cases hE : (l.dropWhile p).getLast? with
    | none => exact absurd (List.getLast?_eq_none_iff.mp hE) h
    | some a => exact ⟨a, rfl⟩
  conv_rhs => rw [← List.takeWhile_append_dropWhile p l]
  rw [List.getLast?_append, ha]
  rfl

theorem stripList_getLast?_false (l : List Char) (a : Char)
    (h : (stripList l).getLast? = some a) : isPySpace a = false := by
  unfold stripList at h
  rw [List.getLast?_reverse] at h
  exact head?_dropWhile_false _ _ _ h

theorem stripList_head?_false (l : List Char) (a : Char)
    (h : (stripList l).head? = some a) : isPySpace a = false := by
  unfold stripList at h
  rw [List.head?_reverse] at h
  have hne : ((l.dropWhile isPySpace).reverse.dropWhile isPySpace) ≠ [] := by
    intro h0
    rw [h0] at h
    cases h
  rw [getLast?_dropWhile _ _ hne, List.getLast?_reverse] at h
  exact head?_dropWhile_false _ _ _ h

theorem stripList_idem (l : List Char) :
    stripList (stripList l) = stripList l := by
  have h1 : (stripList l).dropWhile isPySpace = stripList l :=
    dropWhile_eq_self_of_head _ _ (fun a ha => stripList_head?_false l a ha)
  have h2 : (stripList l).reverse.dropWhile isPySpace = (stripList l).reverse :=
    dropWhile_eq_self_of_head _ _ (fun a ha => by
      rw [List.head?_reverse] at ha
      exact stripList_getLast?_false l a ha)
  calc stripList (stripList l)
      = (((stripList l).dropWhile isPySpace).reverse.dropWhile
          isPySpace).reverse := rfl
    _ = ((stripList l).reverse.dropWhile isPySpace).reverse := by rw [h1]
    _ = ((stripList l).reverse).reverse := by rw [h2]
    _ = stripList l := List.reverse_reverse _

theorem pyStrip_idem (s : String) : pyStrip (pyStrip s) = pyStrip s := by
  show (⟨stripList (stripList s.data)⟩ : String) = ⟨stripList s.data⟩
  rw [stripList_idem]

/-! ## Properties of the banned-tag removal -/

theorem specVisibleTexts_of_removeBanned_none (n : Node)
    (h : removeBanned n = none) : specVisibleTexts n = [] := by
  cases n with
  | text s => simp [removeBanned] at h
  | elem t cs =>
    by_cases hb : t ∈ bannedTags
    · simp [specVisibleTexts, hb]
    · simp [removeBanned, hb] at h

mutual

theorem collectText_removeBanned_some :
    ∀ (n m : Node), removeBanned n = some m → collectText m = specVisibleTexts n
  | Node.text s, m, h => by
    simp only [removeBanned, Option.some.injEq] at h
    subst h
    simp [collectText, specVisibleTexts]
  | Node.elem t cs, m, h => by
    by_cases hb : t ∈ bannedTags
    · simp [removeBanned, hb] at h
    · simp [removeBanned, hb] at h
      subst h
      simp only [collectText]
      rw [collectTexts_removeBannedL cs]
      simp [specVisibleTexts, hb]

theorem collectTexts_removeBannedL :
    ∀ (l : List Node), collectTexts (removeBannedL l) = specVisibleTextsL l
  | [] => rfl
  | c :: cs => by
    cases hc : removeBanned c with
    | none =>
      simp only [removeBannedL, hc]
      rw [collectTexts_removeBannedL cs]
      simp [specVisibleTextsL, specVisibleTexts_of_removeBanned_none c hc]
    | some c2 =>
      simp only [removeBannedL, hc]
      simp only [collectTexts, specVisibleTextsL]
      rw [collectText_removeBanned_some c c2 hc, collectTexts_removeBannedL cs]

end

mutual

theorem noBanned_removeBanned_some :
    ∀ (n m : Node), removeBanned n = some m → noBanned m = true
  | Node.text s, m, h => by
    simp only [removeBanned, Option.some.injEq] at h
    subst h
    simp [noBanned]
  | Node.elem t cs, m, h => by
    by_cases hb : t ∈ bannedTags
    · simp [removeBanned, hb] at h
    · simp [removeBanned, hb] at h
      subst h
      simp only [noBanned]
      rw [noBannedL_removeBannedL cs]
      simp [hb]

theorem noBannedL_removeBannedL :
    ∀ (l : List Node), noBannedL (removeBannedL l) = true
  | [] => rfl
  | c :: cs => by
    cases hc : removeBanned c with
    | none =>
      simp only [removeBannedL, hc]
      exact noBannedL_removeBannedL cs
    | some c2 =>
      simp only [removeBannedL, hc]
      simp only [noBannedL]
      rw [noBanned_removeBanned_some c c2 hc, noBannedL_removeBannedL cs]
      rfl

end

theorem sanitizedLines_mem (body : List Node) (l : String)
    (h : l ∈ sanitizedLines body) : l ≠ "" ∧ pyStrip l = l := by
  unfold sanitizedLines at h
  rw [List.mem_filter] at h
  obtain ⟨hmem, hne⟩ := h
  rw [List.mem_map] at hmem
  obtain ⟨a, _, ha⟩ := hmem
  refine ⟨bne_iff_ne.mp hne, ?_⟩
  rw [← ha, pyStrip_idem]

end JyroDemo
namespace JyroDemo

/-! ## Auxiliary facts for the claim theorems -/

theorem pyStartswith_append (pre rest : String) :
    pyStartswith (pre ++ rest) pre = true := by
  unfold pyStartswith
  rw [String.data_append]
  exact List.isPrefixOf_iff_prefix.mpr (List.prefix_append _ _)

/-! ## Claim theorems -/

/-- Claim C1: for every completion call, the message list sent to the
completion endpoint is exactly one system message carrying the persona
with the embedded bounded context (plus, in document mode, a second
system message carrying the content block), followed by the single new
user message; the prior transcript is quantified over and never appears
in the sent list, so no earlier turn is replayed. -/
theorem claim1_prompt_assembly (secret : Option String)
    (gw : List Msg → Except String String)
    (transcript : List Msg) (q ctx : String) :
    (∀ sent ∈ (websiteQuestionStep secret gw transcript q ctx).2,
        sent = [⟨"system", jyroPromptPre ++ ctx ++ jyroPromptPost⟩,
                ⟨"user", q⟩]) ∧
    (∀ sent ∈ (pdfQuestionStep secret gw transcript q ctx).2,
        sent = [⟨"system", pdf_system_prompt⟩,
                ⟨"system", pdf_content_message ctx⟩,
                ⟨"user", q⟩]) := by
  constructor
  · intro sent hs
    cases hg : get_openai_client secret with
    | error e =>
      simp [websiteQuestionStep, call_jyro_assistant, hg] at hs
    | ok c =>
      cases hw : gw (call_jyro_messages q ctx) with
      | error e =>
        simp [websiteQuestionStep, call_jyro_assistant, hg, hw] at hs
        rw [hs]
        simp [call_jyro_messages, jyro_system_prompt]
      | ok raw =>
        simp [websiteQuestionStep, call_jyro_assistant, hg, hw] at hs
        rw [hs]
        simp [call_jyro_messages, jyro_system_prompt]
  · intro sent hs
    cases hg : get_openai_client secret with
    | error e =>
      simp [pdfQuestionStep, call_pdf_assistant, hg] at hs
    | ok c =>
      cases hw : gw (call_pdf_messages q ctx) with
      | error e =>
        simp [pdfQuestionStep, call_pdf_assistant, hg, hw] at hs
        rw [hs]
        simp [call_pdf_messages]
      | ok raw =>
        simp [pdfQuestionStep, call_pdf_assistant, hg, hw] at hs
        rw [hs]
        simp [call_pdf_messages]

/-- Witness for C1 at a concrete key, gateway, transcript, question and
context. -/
theorem claim1_prompt_assembly_witness :
    (([⟨"system", jyroPromptPre ++ "CTX" ++ jyroPromptPost⟩,
       ⟨"user", "Q"⟩] : List Msg) ∈
      (websiteQuestionStep (some "k") (fun _ => Except.ok "A")
        [⟨"user", "old"⟩, ⟨"assistant", "older"⟩] "Q" "CTX").2) ∧
    ([⟨"system", jyroPromptPre ++ "CTX" ++ jyroPromptPost⟩,
      ⟨"user", "Q"⟩] : List Msg) =
      [⟨"system", jyroPromptPre ++ "CTX" ++ jyroPromptPost⟩, ⟨"user", "Q"⟩] :=
  have h : (websiteQuestionStep (some "k") (fun _ => Except.ok "A")
      [⟨"user", "old"⟩, ⟨"assistant", "older"⟩] "Q" "CTX").2 =
      [[⟨"system", jyroPromptPre ++ "CTX" ++ jyroPromptPost⟩,
        ⟨"user", "Q"⟩]] := rfl
  have hm : ([⟨"system", jyroPromptPre ++ "CTX" ++ jyroPromptPost⟩,
      ⟨"user", "Q"⟩] : List Msg) ∈
      (websiteQuestionStep (some "k") (fun _ => Except.ok "A")
        [⟨"user", "old"⟩, ⟨"assistant", "older"⟩] "Q" "CTX").2 := by
    rw [h]
    exact List.mem_singleton.mpr rfl
  ⟨hm, (claim1_prompt_assembly (some "k") (fun _ => Except.ok "A")
      [⟨"user", "old"⟩, ⟨"assistant", "older"⟩] "Q" "CTX").1 _ hm⟩

/-- Claim C2: truncation never exceeds the bound, and is the identity on
inputs already within the bound. -/
theorem claim2_truncation (text : String) (m : Nat) :
    (truncateTo text m).length ≤ m ∧
      (text.length ≤ m → truncateTo text m = text) := by
  constructor
  · show (text.data.take m).length ≤ m
    rw [List.length_take]
    exact min_le_left _ _
  · intro h
    show (⟨text.data.take m⟩ : String) = text
    rw [List.take_of_length_le h]

/-- Witness for C2 at concrete strings and bounds. -/
theorem claim2_truncation_witness :
    (truncateTo "abcdef" 3).length ≤ 3 ∧ truncateTo "hi" 10 = "hi" :=
  ⟨(claim2_truncation "abcdef" 3).1,
   (claim2_truncation "hi" 10).2 (by decide)⟩

/-- Claim C3: after `decompose`, no script/style/noscript element
remains; the text the flattening stage sees is exactly the document text
outside those elements; every surviving line is non-blank with no
leading or trailing whitespace; and the output joins them with single
newlines. -/
theorem claim3_sanitizer (body : List Node) :
    noBannedL (removeBannedL body) = true ∧
    collectTexts (removeBannedL body) = specVisibleTextsL body ∧
    (∀ l ∈ sanitizedLines body, l ≠ "" ∧ pyStrip l = l) ∧
    cleanHtmlText body = String.intercalate "\n" (sanitizedLines body) :=
  ⟨noBannedL_removeBannedL body, collectTexts_removeBannedL body,
   fun l hl => sanitizedLines_mem body l hl, rfl⟩

/-- The document of Scenario B of the specification. -/
def scenarioBDoc : List Node :=
  [Node.elem "script" [Node.text "evil()"],
   Node.elem "body" [Node.elem "p" [Node.text "Hello"], Node.text "  ",
     Node.elem "p" [Node.text "World"]]]

/-- Witness for C3 on the Scenario B document and one of its lines. -/
theorem claim3_sanitizer_witness :
    ("Hello" ∈ sanitizedLines scenarioBDoc) ∧
      ("Hello" ≠ "" ∧ pyStrip "Hello" = "Hello") :=
  ⟨by decide, (claim3_sanitizer scenarioBDoc).2.2.1 "Hello" (by decide)⟩

/-- Counterexample to C4 as stated: on a failing completion call the
appended assistant content is
"An error occurred while calling the OpenAI API: boom", which is not the
claimed literal "An error occurred while calling the completion
service: boom". -/
theorem claim4_counterexample :
    (websiteQuestionStep (some "k") (fun _ => Except.error "boom") []
        "hi" "ctx").1 =
      [⟨"user", "hi"⟩,
       ⟨"assistant",
         "An error occurred while calling the OpenAI API: boom"⟩] ∧
    "An error occurred while calling the OpenAI API: boom" ≠
      "An error occurred while calling the completion service: boom" := by
  decide

/-- C4 amended: every failure of the completion call is caught at the
call site and appended as the assistant turn
"An error occurred while calling the OpenAI API: <cause>" after the
user's own turn, in both site and document mode; the handler is a total
function, so the session never aborts. -/
theorem claim4_error_turn_appended (secret : Option String)
    (gw : List Msg → Except String String)
    (transcript : List Msg) (q ctx e : String) :
    ((call_jyro_assistant secret gw q ctx).1 = Except.error e →
      (websiteQuestionStep secret gw transcript q ctx).1 =
        transcript ++ [⟨"user", q⟩,
          ⟨"assistant",
            "An error occurred while calling the OpenAI API: " ++ e⟩]) ∧
    ((call_pdf_assistant secret gw q ctx).1 = Except.error e →
      (pdfQuestionStep secret gw transcript q ctx).1 =
        transcript ++ [⟨"user", q⟩,
          ⟨"assistant",
            "An error occurred while calling the OpenAI API: " ++ e⟩]) := by
  constructor
  · intro h
    simp [websiteQuestionStep, h]
  · intro h
    simp [pdfQuestionStep, h]

/-- Witness for the amended C4 at a concrete failing gateway. -/
theorem claim4_error_turn_appended_witness :
    ((call_jyro_assistant (some "k") (fun _ => Except.error "boom")
        "hi" "ctx").1 = Except.error "boom") ∧
    (websiteQuestionStep (some "k") (fun _ => Except.error "boom") []
        "hi" "ctx").1 =
      [] ++ [⟨"user", "hi"⟩,
        ⟨"assistant",
          "An error occurred while calling the OpenAI API: " ++ "boom"⟩] :=
  ⟨rfl,
   (claim4_error_turn_appended (some "k") (fun _ => Except.error "boom")
      [] "hi" "ctx" "boom").1 rfl⟩

/-- Counterexample to C5 as stated: a 304 response is non-2xx, yet
`raise_for_status` does not raise for 3xx, so the fetch returns the
sanitized body, no FetchError is produced, and a conversation is
offered. -/
theorem claim5_counterexample :
    fetch_site_text
        (HttpResult.response 304 "304 Not Modified" [Node.text "hello"]) =
      "hello" ∧
    render_website_chat_page
        (HttpResult.response 304 "304 Not Modified" [Node.text "hello"]) =
      SitePage.chat "hello" ∧
    pyStartswith "hello" "Error while fetching the website" = false := by
  decide

/-- C5 amended: a transport exception, or a 4xx/5xx status (the cases in
which `raise_for_status` raises), is mapped to the
"Error while fetching the website: <cause>" outcome and never raised;
for such statuses the page stops with the error and starts no
conversation. -/
theorem claim5_fetch_error_mapping (status : Nat) (cause : String)
    (body : List Node) :
    (fetch_site_text (HttpResult.transportError cause) =
      "Error while fetching the website: " ++ cause) ∧
    (400 ≤ status → status < 600 →
      fetch_site_text (HttpResult.response status cause body) =
        "Error while fetching the website: " ++ cause) ∧
    (400 ≤ status → status < 600 →
      render_website_chat_page (HttpResult.response status cause body) =
        SitePage.fetchErrorStop
          ("Error while fetching the website: " ++ cause)) := by
  refine ⟨rfl, ?_, ?_⟩
  · intro h1 h2
    simp [fetch_site_text, raiseForStatus, h1, h2]
  · intro h1 h2
    have hf : fetch_site_text (HttpResult.response status cause body) =
        "Error while fetching the website: " ++ cause := by
      simp [fetch_site_text, raiseForStatus, h1, h2]
    have hp : pyStartswith
        ("Error while fetching the website: " ++ cause)
        "Error while fetching the website" = true := by
      have he : ("Error while fetching the website: " ++ cause) =
          "Error while fetching the website" ++ (": " ++ cause) := by
        have h0 : ("Error while fetching the website: " : String) =
            "Error while fetching the website" ++ ": " := rfl
        rw [h0, String.append_assoc]
      rw [he]
      exact pyStartswith_append _ _
    simp [render_website_chat_page, hf, hp]

/-- Witness for the amended C5 at HTTP 500 (Scenario A). -/
theorem claim5_fetch_error_mapping_witness :
    (400 ≤ 500 ∧ 500 < 600) ∧
    render_website_chat_page
        (HttpResult.response 500 "500 Server Error" []) =
      SitePage.fetchErrorStop
        ("Error while fetching the website: " ++ "500 Server Error") :=
  ⟨⟨by decide, by decide⟩,
   (claim5_fetch_error_mapping 500 "500 Server Error" []).2.2
     (by decide) (by decide)⟩

/-- Counterexample to C6 as stated: in site mode a page whose sanitized
text is empty is not refused — the fetch yields the empty context, the
error-prefix guard does not fire, and the conversation input is offered
over the empty context. -/
theorem claim6_counterexample :
    fetch_site_text (HttpResult.response 200 "OK" []) = "" ∧
    pyStrip "" = "" ∧
    render_website_chat_page (HttpResult.response 200 "OK" []) =
      SitePage.chat "" := by
  decide

/-- C6 amended: in document mode only, a source whose stored text is
blank after extraction makes the page warn and return before the
question input is rendered. -/
theorem claim6_blank_document_refused (secret : Option String)
    (gw : List Msg → Except String String) (sess : PdfSession)
    (name : String) (pages : List PageExtract) (question : Option String)
    (h : pyStrip ((uploadStep sess name pages).1.pdf_text.getD "") = "") :
    render_pdf_chat_page secret gw sess (some (name, pages)) question =
      ⟨(uploadStep sess name pages).1, PdfPage.noReadableText,
        (uploadStep sess name pages).2⟩ := by
  simp [render_pdf_chat_page, h]

/-- Witness for the amended C6: a document with no extractable page
text (Scenario C). -/
theorem claim6_blank_document_refused_witness :
    (pyStrip ((uploadStep ⟨none, none, none⟩ "scan.pdf"
        [PageExtract.failed]).1.pdf_text.getD "") = "") ∧
    render_pdf_chat_page none (fun _ => Except.ok "")
        ⟨none, none, none⟩ (some ("scan.pdf", [PageExtract.failed]))
        (some "q") =
      ⟨⟨some "", some "scan.pdf", some []⟩, PdfPage.noReadableText, true⟩ :=
  ⟨by decide,
   claim6_blank_document_refused none (fun _ => Except.ok "")
     ⟨none, none, none⟩ "scan.pdf" [PageExtract.failed] (some "q")
     (by decide)⟩

/-- Claim C7: re-uploading the same source reuses the stored bounded
context without re-extracting; a different source identity re-extracts
and resets the transcript; and in the French variant a successful load
replaces the context and clears the transcript. -/
theorem claim7_cache_and_reset (sess : PdfSession) (name : String)
    (pages : List PageExtract) (fr : FrSession) (url fetched : String) :
    (sess.pdf_text ≠ none → sess.pdf_filename = some name →
      uploadStep sess name pages = (sess, false)) ∧
    (sess.pdf_filename ≠ some name →
      uploadStep sess name pages =
        (⟨some (extract_pdf_text pages), some name, some []⟩, true)) ∧
    (pyStartswith fetched "Erreur lors de la récupération" = false →
      frLoadSite fr url fetched = ⟨some url, some fetched, []⟩) := by
  refine ⟨?_, ?_, ?_⟩
  · intro h1 h2
    have hn : sess.pdf_text.isNone = false := by
      cases hx : sess.pdf_text with
      | none => exact absurd hx h1
      | some t => rfl
    simp [uploadStep, hn, h2]
  · intro h
    have hb : (sess.pdf_filename != some name) = true := bne_iff_ne.mpr h
    simp [uploadStep, hb]
  · intro h
    simp [frLoadSite, h]

/-- Witness for C7: a same-name re-upload reuses, a fresh name
recomputes and resets, and a French-variant load stores and clears. -/
theorem claim7_cache_and_reset_witness :
    uploadStep ⟨some "T", some "a.pdf", some [⟨"user", "u"⟩]⟩ "a.pdf"
        [PageExtract.ok "x"] =
      (⟨some "T", some "a.pdf", some [⟨"user", "u"⟩]⟩, false) ∧
    uploadStep ⟨some "T", some "a.pdf", some []⟩ "b.pdf"
        [PageExtract.ok "x"] =
      (⟨some "x", some "b.pdf", some []⟩, true) ∧
    frLoadSite ⟨some "https://old", some "ancien", [⟨"user", "u"⟩]⟩
        "https://a" "contenu" =
      ⟨some "https://a", some "contenu", []⟩ :=
  ⟨(claim7_cache_and_reset ⟨some "T", some "a.pdf", some [⟨"user", "u"⟩]⟩
      "a.pdf" [PageExtract.ok "x"] ⟨none, none, []⟩ "" "").1
      (by decide) (by decide),
   (claim7_cache_and_reset ⟨some "T", some "a.pdf", some []⟩ "b.pdf"
      [PageExtract.ok "x"] ⟨none, none, []⟩ "" "").2.1 (by decide),
   (claim7_cache_and_reset ⟨none, none, none⟩ "" []
      ⟨some "https://old", some "ancien", [⟨"user", "u"⟩]⟩
      "https://a" "contenu").2.2 (by decide)⟩

/-- Counterexample to C8 as stated: with the credential absent the
website page still renders and offers the conversation (the render path
never consults the credential), and the missing key surfaces only when
a question triggers a completion call, as the per-request assistant
error turn — not as a fatal startup error. -/
theorem claim8_counterexample :
    render_website_chat_page
        (HttpResult.response 200 "OK" [Node.text "hi"]) =
      SitePage.chat "hi" ∧
    websiteQuestionStep none (fun _ => Except.ok "unused") [] "q" "hi" =
      ([⟨"user", "q"⟩,
        ⟨"assistant",
          "An error occurred while calling the OpenAI API: KeyError: OPENAI_KEY"⟩],
       []) := by
  decide

/-- C8 amended: an absent (or empty) credential makes each completion
call fail during client construction, before any request is sent to the
endpoint (the request log stays empty), and the failure is reported
through the per-request handler as the assistant error turn. -/
theorem claim8_missing_key_per_request
    (gw : List Msg → Except String String) (transcript : List Msg)
    (q ctx : String) :
    call_jyro_assistant none gw q ctx =
      (Except.error "KeyError: OPENAI_KEY", []) ∧
    call_jyro_assistant (some "") gw q ctx =
      (Except.error "OPENAI_KEY is not set in Streamlit secrets.", []) ∧
    websiteQuestionStep none gw transcript q ctx =
      (transcript ++ [⟨"user", q⟩,
        ⟨"assistant",
          "An error occurred while calling the OpenAI API: KeyError: OPENAI_KEY"⟩],
       []) := by
  refine ⟨rfl, ?_, ?_⟩
  · simp [call_jyro_assistant, get_openai_client]
  · simp [websiteQuestionStep, call_jyro_assistant, get_openai_client]

/-- The network environment of session one in the C9 counterexample. -/
def envHello : String → HttpResult :=
  fun _ => HttpResult.response 200 "OK" [Node.text "hello"]

/-- The network environment of session two in the C9 counterexample:
its own fetch would fail. -/
def envDown : String → HttpResult :=
  fun _ => HttpResult.transportError "connection refused"

/-- Session one fetches a site into the empty process. -/
def leakStep1 : String × World × Bool :=
  worldFetch ⟨[], [], []⟩ SessionId.one envHello "https://site"

/-- Session two then asks for the same URL in the same process. -/
def leakStep2 : String × World × Bool :=
  worldFetch leakStep1.2.1 SessionId.two envDown "https://site"

/-- Counterexample to C9 as stated: the `lru_cache` on `fetch_site_text`
is process-wide, so the entry created by session one is returned to
session two without any network activity — session two sees session
one's fetched content even though its own fetch would have failed. -/
theorem claim9_counterexample :
    leakStep1.1 = "hello" ∧ leakStep1.2.2 = true ∧
    leakStep2.1 = "hello" ∧ leakStep2.2.2 = false ∧
    fetch_site_text (envDown "https://site") ≠ "hello" := by
  decide

/-- C9 amended: per-session `st.session_state` transcripts are isolated
(a question in one session leaves the other session's transcript
untouched), but the fetch memo cache is shared process-wide: a cached
entry is returned to either session without a new fetch. -/
theorem claim9_isolation_amended (w : World) (secret : Option String)
    (gw : List Msg → Except String String) (input ctx url v : String)
    (env : String → HttpResult) :
    ((worldAsk w SessionId.one secret gw input ctx).web_messages2 =
        w.web_messages2) ∧
    ((worldAsk w SessionId.two secret gw input ctx).web_messages1 =
        w.web_messages1) ∧
    (w.cache.lookup url = some v →
      ∀ sid, (worldFetch w sid env url).1 = v ∧
        (worldFetch w sid env url).2.2 = false) := by
  refine ⟨rfl, rfl, ?_⟩
  intro h sid
  constructor <;> simp [worldFetch, cachedFetchSite, h]

/-- Witness for the amended C9 on a concrete pre-populated cache. -/
theorem claim9_isolation_amended_witness :
    ((([("u", "hi")] : List (String × String)).lookup "u" = some "hi") ∧
      (worldFetch ⟨[("u", "hi")], [], []⟩ SessionId.two envDown "u").1 =
        "hi" ∧
      (worldFetch ⟨[("u", "hi")], [], []⟩ SessionId.two envDown "u").2.2 =
        false) :=
  ⟨by decide,
   (claim9_isolation_amended ⟨[("u", "hi")], [], []⟩ none
      (fun _ => Except.ok "") "q" "c" "u" "hi" envDown).2.2 (by decide)
     SessionId.two⟩

/-- Claim C10: a cache hit returns the stored string — including a
memoized error string — with no network request, and a miss stores the
fetched result so later calls with the same URL hit. -/
theorem claim10_fetch_memoized (maxsize : Nat)
    (cache : List (String × String)) (env : String → HttpResult)
    (url v : String) :
    (cache.lookup url = some v →
      cachedFetchSite maxsize cache env url =
        (v, (url, v) :: cache.eraseP (fun p => p.1 == url), false)) ∧
    (1 ≤ maxsize → cache.lookup url = none →
      (cachedFetchSite maxsize cache env url).1 =
          fetch_site_text (env url) ∧
        ((cachedFetchSite maxsize cache env url).2.1).lookup url =
          some (fetch_site_text (env url)) ∧
        (cachedFetchSite maxsize cache env url).2.2 = true) := by
  constructor
  · intro h
    simp [cachedFetchSite, h]
  · intro hm h
    obtain ⟨k, rfl⟩ : ∃ k, maxsize = k + 1 := ⟨maxsize - 1, by omega⟩
    refine ⟨by simp [cachedFetchSite, h], ?_, by simp [cachedFetchSite, h]⟩
    simp [cachedFetchSite, h, List.take_succ_cons, List.lookup]

/-- The failing network environment of the C10 witness. -/
def envTimeout : String → HttpResult :=
  fun _ => HttpResult.transportError "timed out"

/-- Witness for C10: a memoized failure string is served from the cache
without a retry. -/
theorem claim10_fetch_memoized_witness :
    (([("https://x", "Error while fetching the website: timed out")] :
        List (String × String)).lookup "https://x" =
      some "Error while fetching the website: timed out") ∧
    cachedFetchSite 1
        [("https://x", "Error while fetching the website: timed out")]
        envTimeout "https://x" =
      ("Error while fetching the website: timed out",
       [("https://x", "Error while fetching the website: timed out")],
       false) :=
  ⟨by decide,
   (claim10_fetch_memoized 1
      [("https://x", "Error while fetching the website: timed out")]
      envTimeout "https://x"
      "Error while fetching the website: timed out").1 (by decide)⟩

end JyroDemo
